import Mathlib

/-!
Shallow embedding of `src/clients/gpssnmp.c` (the single-shot SNMP poll
client).  The core of the tool after CLI parsing and `gps_open` is modelled:

* the poll loop (`pollLoop`) that drives `gps_waiting` / `gps_read` until a
  `SATELLITE_SET` report arrives, a read fails, or the 10-second deadline
  passes (checked with `llabs` on the seconds difference);
* the metric aggregation over `gpsdata.skyview[0..satellites_used]`
  (`snrTotal`, `aggregate`);
* the fixed OID translation table and its linear scan (`xlate`, `scanTable`,
  `resolve`), including the printf rendering of `%d` and `%lf` values
  (`fmtInt`, `fmtDouble6`);
* the whole post-open execution (`runMain`), recording stdout lines, the
  error kind reported to stderr, the exit code, and whether `gps_close`
  was reached.

C doubles are modelled as exact rationals (the claims under study are about
the algorithmic structure, not rounding), `int` / `time_t` as `Int`.
-/

namespace Gpssnmp

/-- One entry of `gpsdata.skyview`: the `used` flag (tested as `0 < used`
in the C source) and the signal-to-noise reading `ss`. -/
structure SatRecord where
  used : Int
  ss : ℚ
deriving DecidableEq

/-- The part of `struct gps_data_t` the tool reads after the poll loop.
`skyview` is a total function, mirroring the fixed-size C array. -/
structure GpsData where
  satellites_used : Int
  satellites_visible : Int
  skyview : Nat → SatRecord

/-- The `snr_total` accumulation loop
`for(i = 0; i <= used; i++) if (0 < used && 1 < ss) snr_total += ss;`:
it visits exactly the positions `0 .. used` inclusive. -/
def snrTotal (used : Int) (sky : Nat → SatRecord) : ℚ :=
  ∑ i in Finset.range ((used + 1).toNat),
    (if 0 < (sky i).used ∧ 1 < (sky i).ss then (sky i).ss else 0)

/-- The three derived metrics (the variables `visible`, `used`, `snr_avg`). -/
structure MetricSet where
  visible : Int
  used : Int
  snr_avg : ℚ
deriving DecidableEq

/-- Lines 171-184 of the source: take `used` and `visible` verbatim, sum the
qualifying SNR values, and divide by `used` only when `0 < used`; otherwise
`snr_avg` keeps its initialiser `0.0`. -/
def aggregate (d : GpsData) : MetricSet :=
  { visible := d.satellites_visible
    used := d.satellites_used
    snr_avg :=
      if 0 < d.satellites_used then
        snrTotal d.satellites_used d.skyview / (d.satellites_used : ℚ)
      else 0 }

/-! ### printf rendering -/

/-- The ASCII digit for `d < 10`. -/
def digitChar (d : Nat) : Char := Char.ofNat (48 + d)

/-- Decimal digits of `n`, most significant first, computed with enough
fuel; `natDecAux (n + 1) n` always renders all digits of `n`. -/
def natDecAux : Nat → Nat → List Char
  | 0, _ => []
  | fuel + 1, n =>
      if n < 10 then [digitChar n]
      else natDecAux fuel (n / 10) ++ [digitChar (n % 10)]

/-- Characters of `printf("%d", n)`: optional minus sign followed by the
decimal digits. -/
def fmtIntChars (n : Int) : List Char :=
  (if n < 0 then ['-'] else []) ++ natDecAux (n.natAbs + 1) n.natAbs

/-- `printf("%d", n)`. -/
def fmtInt (n : Int) : String := String.mk (fmtIntChars n)

/-- Magnitude of `q` scaled to millionths and rounded to nearest
(half away from zero), as `printf("%lf", q)` does for its six fractional
digits: `⌊|q| * 1000000 + 1/2⌋`, computed on the reduced fraction. -/
def scaled6 (q : ℚ) : Nat := (2 * q.num.natAbs * 1000000 + q.den) / (2 * q.den)

/-- The `k` decimal digits of `n < 10 ^ k`, most significant first. -/
def fracDigits : Nat → Nat → List Char
  | 0, _ => []
  | k + 1, n => digitChar (n / 10 ^ k) :: fracDigits k (n % 10 ^ k)

/-- Characters of `printf("%lf", q)`: optional sign, integer part, decimal
point, exactly six fractional digits. -/
def fmtDouble6Chars (q : ℚ) : List Char :=
  (if q < 0 then ['-'] else []) ++
    natDecAux (scaled6 q / 1000000 + 1) (scaled6 q / 1000000) ++
    '.' :: fracDigits 6 (scaled6 q % 1000000)

/-- `printf("%lf", q)`. -/
def fmtDouble6 (q : ℚ) : String := String.mk (fmtDouble6Chars q)

/-! ### The OID translation table and its linear scan -/

def OID_VISIBLE : String := ".1.3.6.1.2.1.25.1.31"

def OID_USED : String := ".1.3.6.1.2.1.25.1.32"

def OID_SNR_AVG : String := ".1.3.6.1.2.1.25.1.33"

/-- A bound table value: the C struct holds either an `int *` or a
`double *`; exactly one is non-NULL in each real entry. -/
inductive MVal where
  | ival (n : Int)
  | dval (q : ℚ)
deriving DecidableEq

/-- Render a table value the way the matching `printf` call does. -/
def renderVal : MVal → String
  | .ival n => fmtInt n
  | .dval q => fmtDouble6 q

/-- The `xlate` array: three entries binding the OIDs to `visible`,
`used` and `snr_avg`; the NULL sentinel is the end of the list. -/
def xlate (m : MetricSet) : List (String × MVal) :=
  [(OID_VISIBLE, .ival m.visible),
   (OID_USED, .ival m.used),
   (OID_SNR_AVG, .dval m.snr_avg)]

/-- The linear scan over `xlate` (lines 185-204): on a `strcmp` match,
print `<oid> = gauge: <value>\n`; falling off the end of the list is the
unknown-OID failure carrying the requested string. -/
def scanTable (oid : String) : List (String × MVal) → Except String String
  | [] => .error oid
  | e :: rest =>
      if e.1 = oid then .ok (e.1 ++ " = gauge: " ++ renderVal e.2 ++ "\n")
      else scanTable oid rest

/-- Resolve a requested OID against the metric set. -/
def resolve (oid : String) (m : MetricSet) : Except String String :=
  scanTable oid (xlate m)

/-! ### The poll loop and the whole post-open run -/

/-- One iteration of transport behaviour: the `gps_waiting`
answer, whether `gps_read` returns -1, whether `SATELLITE_SET` is in
`gpsdata.set` after the read, the `clock_gettime` seconds reading, and the
session data after the read. -/
structure PollEvent where
  ready : Bool
  readFails : Bool
  satSet : Bool
  now : Int
  data : GpsData

/-- Line 162: `10 < llabs(ts_now.tv_sec - ts_start.tv_sec)`. -/
def timeoutCheck (tsStart tsNow : Int) : Bool :=
  10 < (tsNow - tsStart).natAbs

/-- How the poll loop ends: fall through to aggregation with the session
data current at that point, exit(1) on a failed read, exit(1) on the
deadline, or (`exhausted`) still looping after the modelled events. -/
inductive PollOutcome where
  | proceed (d : GpsData)
  | readError
  | timeout
  | exhausted

/-- Lines 149-170: while `gps_waiting` is true, read; exit(1) if the read
fails; break out on `SATELLITE_SET`; exit(1) once the clock check trips;
otherwise keep looping with the updated session data. -/
def pollLoop (tsStart : Int) (d : GpsData) : List PollEvent → PollOutcome
  | [] => .exhausted
  | e :: rest =>
      if e.ready = false then .proceed d
      else if e.readFails then .readError
      else if e.satSet then .proceed e.data
      else if timeoutCheck tsStart e.now then .timeout
      else pollLoop tsStart e.data rest

/-- The error kinds the tool reports to stderr after a successful open. -/
inductive ErrKind where
  | transportFailure
  | timeout
  | unknownIdentifier (oid : String)
deriving DecidableEq

/-- Observable outcome of one run: stdout lines, the stderr error kind if
any, the exit code, and whether `gps_close` was executed. -/
structure ProgResult where
  stdout : List String
  err : Option ErrKind
  exitCode : Nat
  closed : Bool
deriving DecidableEq

/-- Everything after a successful `gps_open` (lines 147-206): run the poll
loop; on a read failure or the deadline, print the error and exit(1)
without reaching `gps_close`; otherwise aggregate, call `gps_close`, and
scan the table, printing the metric line (exit 0) or the unknown-OID
error (exit 1).  `none` means the modelled events ran out with the loop
still going. -/
def runMain (oid : String) (tsStart : Int) (init : GpsData)
    (events : List PollEvent) : Option ProgResult :=
  match pollLoop tsStart init events with
  | .exhausted => none
  | .readError => some ⟨[], some .transportFailure, 1, false⟩
  | .timeout => some ⟨[], some .timeout, 1, false⟩
  | .proceed d =>
      match resolve oid (aggregate d) with
      | .ok line => some ⟨[line], none, 0, true⟩
      | .error s => some ⟨[], some (.unknownIdentifier s), 1, true⟩

/-- True exactly on the fall-through loop outcomes, the ones that reach
`gps_close`. -/
def isProceed : PollOutcome → Bool
  | .proceed _ => true
  | _ => false


/-! ### The spec reading of the SNR sum, and concrete data for witnesses -/

/-- The average-SNR numerator as the specification words it: the sum of
`ss` over ALL satellite records of the report (one per tracked satellite,
`satellites_visible` of them) whose `used` flag is set and whose `ss`
exceeds 1.0.  To be compared with `snrTotal`, which only visits positions
`0 .. satellites_used`. -/
def specSnrSumAllRecords (d : GpsData) : ℚ :=
  ∑ i in Finset.range d.satellites_visible.toNat,
    (if 0 < (d.skyview i).used ∧ 1 < (d.skyview i).ss then (d.skyview i).ss else 0)

/-- A report with one used satellite that sits at position 2 of the
skyview, past the `0 .. satellites_used` window the accumulation loop
visits. -/
def dC1 : GpsData := ⟨1, 3, fun i => if i = 2 then ⟨1, 30⟩ else ⟨0, 0⟩⟩

/-- A report with 4 used satellites at positions 0-3 (SNRs 20, 25, 30,
35), 5 visible. -/
def dSpec : GpsData := ⟨4, 5, fun i => if i < 4 then ⟨1, 20 + 5 * i⟩ else ⟨0, 0⟩⟩

/-- An empty session snapshot: nothing used, nothing visible. -/
def dZero : GpsData := ⟨0, 0, fun _ => ⟨0, 0⟩⟩

/-- Transport ready but the read fails. -/
def evFail : PollEvent := ⟨true, true, false, 0, dZero⟩

/-- Transport ready, read fine, no satellite report, 11 seconds after a
start at second 0. -/
def evLate : PollEvent := ⟨true, false, false, 11, dZero⟩

/-- Transport not ready within the 5-second slice. -/
def evNotReady : PollEvent := ⟨false, false, false, 0, dZero⟩

/-- Skyview with a used satellite at position 2 only. -/
def skyA : Nat → SatRecord := fun i => if i = 2 then ⟨1, 50⟩ else ⟨0, 0⟩

/-- Skyview with no used satellite anywhere. -/
def skyB : Nat → SatRecord := fun _ => ⟨0, 0⟩

/-- A concrete metric set for resolver witnesses. -/
def mW : MetricSet := ⟨13, 4, 89 / 4⟩

/-! ### Helper lemmas -/

lemma fracDigits_length (k : Nat) : ∀ n : Nat, (fracDigits k n).length = k := by
  induction k with
  | zero => intro n; rfl
  | succ k ih => intro n; simp [fracDigits, ih]

lemma natDecAux_mem_digit {f n : Nat} {c : Char} (hc : c ∈ natDecAux f n) :
    ∃ d, d < 10 ∧ c = digitChar d := by
  induction f generalizing n with
  | zero => simp [natDecAux] at hc
  | succ f ih =>
    rw [natDecAux] at hc
    by_cases h : n < 10
    · rw [if_pos h] at hc
      simp at hc
      exact ⟨n, h, hc⟩
    · rw [if_neg h] at hc
      rcases List.mem_append.mp hc with h1 | h1
      · exact ih h1
      · simp at h1
        exact ⟨n % 10, Nat.mod_lt _ (by norm_num), h1⟩

lemma digitChar_ne_dot {d : Nat} (hd : d < 10) : digitChar d ≠ '.' := by
  interval_cases d <;> decide

lemma fmtIntChars_no_dot (n : Int) : ∀ c ∈ fmtIntChars n, c ≠ '.' := by
  intro c hc
  rw [fmtIntChars] at hc
  rcases List.mem_append.mp hc with h1 | h1
  · by_cases h : n < 0
    · rw [if_pos h] at h1
      simp at h1
      subst h1
      decide
    · rw [if_neg h] at h1
      simp at h1
  · obtain ⟨d, hd, rfl⟩ := natDecAux_mem_digit h1
    exact digitChar_ne_dot hd

/-! ### C1 -/

/-- C1 counterexample: on `dC1` (satellitesUsed = 1, a used satellite with
SNR 30 at position 2 of 3 visible), the code computes `snr_avg = 0`, while
the sum over ALL records of the report divided by `satellites_used` is 30:
the accumulation loop stops at position `satellites_used` and never sees
position 2, so the claim as stated fails. -/
theorem C1_counterexample :
    0 < dC1.satellites_used ∧
      (aggregate dC1).snr_avg ≠ specSnrSumAllRecords dC1 / (dC1.satellites_used : ℚ) := by
  refine ⟨by decide, ?_⟩
  norm_num [aggregate, specSnrSumAllRecords, dC1, snrTotal,
    show ((2 : Int)).toNat = 2 from rfl, show ((3 : Int)).toNat = 3 from rfl,
    Finset.sum_range_succ]

/-- C1 amended: for every report with `satellitesUsed > 0`, `averageSnr`
equals the sum of `signalToNoise` over the records at positions
`0 .. satellitesUsed` inclusive whose `used` flag is set and whose
`signalToNoise` exceeds 1.0, divided by the reported `satellitesUsed`
(not by the count of qualifying records). -/
theorem C1_amended_snr_avg (d : GpsData) (h : 0 < d.satellites_used) :
    (aggregate d).snr_avg =
      (∑ i in (Finset.range ((d.satellites_used + 1).toNat)).filter
          (fun i => 0 < (d.skyview i).used ∧ 1 < (d.skyview i).ss),
        (d.skyview i).ss) / (d.satellites_used : ℚ) := by
  simp only [aggregate, if_pos h, snrTotal, Finset.sum_filter]

/-- C1 amended, evaluated at the concrete report `dSpec`. -/
theorem C1_amended_snr_avg_witness :
    (aggregate dSpec).snr_avg =
      (∑ i in (Finset.range ((dSpec.satellites_used + 1).toNat)).filter
          (fun i => 0 < (dSpec.skyview i).used ∧ 1 < (dSpec.skyview i).ss),
        (dSpec.skyview i).ss) / (dSpec.satellites_used : ℚ) :=
  C1_amended_snr_avg dSpec (by decide)

/-! ### C2 -/

/-- C2 counterexample: the claim says the session handle is released on
every path, but on the transport-read-failure path the program exits with
code 1 and `gps_close` is never executed. -/
theorem C2_counterexample :
    ¬ (∀ r : ProgResult, runMain OID_USED 0 dZero [evFail] = some r → r.closed = true) := by
  intro h
  exact absurd (h ⟨[], some .transportFailure, 1, false⟩ rfl) (by decide)

/-- C2 amended: `gps_close` is executed exactly on the runs whose poll
loop falls through to aggregation (satellite report received or transport
not ready); the read-failure and deadline paths exit without closing. -/
theorem C2_amended_close (oid : String) (tsStart : Int) (init : GpsData)
    (events : List PollEvent) (r : ProgResult)
    (h : runMain oid tsStart init events = some r) :
    r.closed = isProceed (pollLoop tsStart init events) := by
  rcases hp : pollLoop tsStart init events with d | _ | _ | _ <;>
    simp only [runMain, hp] at h
  · rcases hr : resolve oid (aggregate d) with s | line <;>
      simp only [hr] at h <;> cases h <;> simp [isProceed, hp]
  · cases h; simp [isProceed, hp]
  · cases h; simp [isProceed, hp]
  · cases h

/-- C2 amended, evaluated on the concrete read-failure run. -/
theorem C2_amended_close_witness :
    ProgResult.closed ⟨[], some .transportFailure, 1, false⟩ =
      isProceed (pollLoop 0 dZero [evFail]) :=
  C2_amended_close OID_USED 0 dZero [evFail] ⟨[], some .transportFailure, 1, false⟩ rfl

/-! ### C4 -/

/-- C4 counterexample: the deadline check does not ignore backward clock
movement; a clock that jumps back 20 seconds (readings 100 then 80) trips
the check at once even though almost no real time has passed, because
`llabs` turns the backward jump into a large magnitude. -/
theorem C4_counterexample :
    ¬ (∀ tsStart tsNow : Int, tsNow < tsStart → timeoutCheck tsStart tsNow = false) := by
  intro h
  exact absurd (h 100 80 (by decide)) (by decide)

/-- C4 amended: the deadline detection compares the magnitude
`|now - start|` against 10, symmetrically in its two readings; a clock
discrepancy of magnitude at most 10 never trips it (so a small backward
adjustment cannot falsely trigger), and any discrepancy of magnitude more
than 10 always trips it (so a backward jump cannot bypass the deadline;
a backward jump larger than the deadline does trigger it immediately). -/
theorem C4_amended_abs_check (tsStart tsNow : Int) :
    (timeoutCheck tsStart tsNow = true ↔ 10 < (tsNow - tsStart).natAbs) ∧
    timeoutCheck tsStart tsNow = timeoutCheck tsNow tsStart ∧
    ((tsNow - tsStart).natAbs ≤ 10 → timeoutCheck tsStart tsNow = false) := by
  refine ⟨by simp [timeoutCheck], ?_, ?_⟩
  · have habs : (tsNow - tsStart).natAbs = (tsStart - tsNow).natAbs := by omega
    simp [timeoutCheck, habs]
  · intro h
    simp only [timeoutCheck, decide_eq_false_iff_not, not_lt]
    omega

/-- C4 amended, evaluated at concrete clock readings: 7 seconds elapsed
does not trip the check, a 25-second discrepancy does. -/
theorem C4_amended_abs_check_witness :
    timeoutCheck 0 7 = false ∧ timeoutCheck 0 25 = true :=
  ⟨(C4_amended_abs_check 0 7).2.2 (by decide), (C4_amended_abs_check 0 25).1.mpr (by decide)⟩

/-! ### C3 -/

/-- C3: for a transport that is always ready but only yields readable
non-satellite reports, the poll loop ends in the timeout failure as soon
as some iteration reads a clock more than 10 seconds from the start (it
does not run off the end of the event list), and the whole run then
reports the timeout error with exit code 1. -/
theorem C3_timeout_bounded (tsStart : Int) (d : GpsData) (events : List PollEvent)
    (hall : ∀ e ∈ events, e.ready = true ∧ e.readFails = false ∧ e.satSet = false)
    (hex : ∃ e ∈ events, timeoutCheck tsStart e.now = true) :
    pollLoop tsStart d events = .timeout ∧
      ∀ oid, runMain oid tsStart d events = some ⟨[], some .timeout, 1, false⟩ := by
  have hloop : ∀ d0 : GpsData, pollLoop tsStart d0 events = .timeout := by
    induction events with
    | nil => simp at hex
    | cons e rest ih =>
      intro d0
      obtain ⟨h1, h2, h3⟩ := hall e (List.mem_cons_self e rest)
      by_cases ht : timeoutCheck tsStart e.now = true
      · simp [pollLoop, h1, h2, h3, ht]
      · have hex2 : ∃ f ∈ rest, timeoutCheck tsStart f.now = true := by
          obtain ⟨f, hf, hft⟩ := hex
          rcases List.mem_cons.mp hf with rfl | hf2
          · exact absurd hft ht
          · exact ⟨f, hf2, hft⟩
        have hall2 : ∀ f ∈ rest, f.ready = true ∧ f.readFails = false ∧ f.satSet = false :=
          fun f hf => hall f (List.mem_cons_of_mem e hf)
        simp only [pollLoop, h1, h2, h3, ht]
        simp only [Bool.true_eq_false, if_false, if_neg ht, Bool.false_eq_true]
        exact ih hall2 hex2 e.data
  refine ⟨hloop d, fun oid => ?_⟩
  simp [runMain, hloop d]

/-- C3 evaluated on a concrete always-ready, never-satellite transport
whose second reading is 11 seconds after the start. -/
theorem C3_timeout_bounded_witness :
    pollLoop 0 dZero [evLate] = .timeout ∧
      runMain OID_VISIBLE 0 dZero [evLate] = some ⟨[], some .timeout, 1, false⟩ := by
  have T := C3_timeout_bounded 0 dZero [evLate]
    (by
      intro e he
      rcases List.mem_singleton.mp he with rfl
      exact ⟨rfl, rfl, rfl⟩)
    ⟨evLate, List.mem_singleton.mpr rfl, by decide⟩
  exact ⟨T.1, T.2 OID_VISIBLE⟩

/-! ### C5 -/

/-- C5: the resolver is total on the fixed three-entry table.  Each of
the three known OIDs deterministically yields the formatted line for its
bound metric; any other string falls off the end of the table, fails
carrying the offending string, and the run reports the unknown-identifier
error with exit code 1. -/
theorem C5_resolver_total (m : MetricSet) (oid : String)
    (hv : oid ≠ OID_VISIBLE) (hu : oid ≠ OID_USED) (hs : oid ≠ OID_SNR_AVG) :
    resolve OID_VISIBLE m = .ok (OID_VISIBLE ++ " = gauge: " ++ fmtInt m.visible ++ "\n") ∧
    resolve OID_USED m = .ok (OID_USED ++ " = gauge: " ++ fmtInt m.used ++ "\n") ∧
    resolve OID_SNR_AVG m = .ok (OID_SNR_AVG ++ " = gauge: " ++ fmtDouble6 m.snr_avg ++ "\n") ∧
    resolve oid m = .error oid ∧
    ∀ tsStart init events d, pollLoop tsStart init events = .proceed d →
      runMain oid tsStart init events = some ⟨[], some (.unknownIdentifier oid), 1, true⟩ := by
  have e1 : OID_VISIBLE ≠ OID_USED := by decide
  have e2 : OID_VISIBLE ≠ OID_SNR_AVG := by decide
  have e3 : OID_USED ≠ OID_SNR_AVG := by decide
  have herr : ∀ m2 : MetricSet, resolve oid m2 = .error oid := fun m2 => by
    simp [resolve, xlate, scanTable, Ne.symm hv, Ne.symm hu, Ne.symm hs]
  refine ⟨?_, ?_, ?_, herr m, ?_⟩
  · simp [resolve, xlate, scanTable, renderVal]
  · simp [resolve, xlate, scanTable, renderVal, e1]
  · simp [resolve, xlate, scanTable, renderVal, e2, e3]
  · intro tsStart init events d hp
    simp [runMain, hp, herr (aggregate d)]

/-- C5 evaluated at a concrete metric set, a known OID and the unknown
string "bogus". -/
theorem C5_resolver_total_witness :
    resolve OID_USED mW = .ok (OID_USED ++ " = gauge: " ++ fmtInt mW.used ++ "\n") ∧
    resolve "bogus" mW = .error "bogus" := by
  have T := C5_resolver_total mW "bogus" (by decide) (by decide) (by decide)
  exact ⟨T.2.1, T.2.2.2.1⟩

/-! ### C6 -/

/-- C6: when `satellites_used = 0`, `snr_avg` keeps its default 0.0
whatever the skyview records and the visible count hold; the division is
guarded by `0 < used` and never happens. -/
theorem C6_zero_used_default (vis : Int) (sky : Nat → SatRecord) :
    (aggregate ⟨0, vis, sky⟩).snr_avg = 0 := by
  simp [aggregate]

/-! ### C7 -/

/-- C7: whenever the transport is ready but the read fails, the poll loop
aborts at once with the read-error outcome no matter what events would
have followed, and the whole run reports the transport failure with exit
code 1, no stdout output and no aggregation. -/
theorem C7_read_failure_aborts (tsStart : Int) (d : GpsData) (e : PollEvent)
    (rest : List PollEvent) (h1 : e.ready = true) (h2 : e.readFails = true) :
    pollLoop tsStart d (e :: rest) = .readError ∧
      ∀ oid init events, pollLoop tsStart init events = PollOutcome.readError →
        runMain oid tsStart init events = some ⟨[], some .transportFailure, 1, false⟩ := by
  constructor
  · simp [pollLoop, h1, h2]
  · intro oid init events hp
    simp [runMain, hp]

/-- C7 evaluated on the concrete failing-read transport. -/
theorem C7_read_failure_aborts_witness :
    pollLoop 0 dZero [evFail] = .readError ∧
      runMain OID_USED 0 dZero [evFail] = some ⟨[], some .transportFailure, 1, false⟩ := by
  have T := C7_read_failure_aborts 0 dZero evFail [] rfl rfl
  exact ⟨T.1, T.2 OID_USED dZero [evFail] T.1⟩

/-! ### C8 -/

/-- C8: on a successful match the run emits exactly one stdout line of
the form `<identifier> = gauge: <value>`; integer-bound OIDs render with
`%d`, whose characters never include a decimal point, and the float-bound
average-SNR OID renders with `%lf`, whose text is an integer part followed
by a point and exactly six fractional digits. -/
theorem C8_output_format (m : MetricSet) (oid : String) (tsStart : Int)
    (init : GpsData) (events : List PollEvent) (d : GpsData) (line : String)
    (hp : pollLoop tsStart init events = .proceed d)
    (hr : resolve oid (aggregate d) = .ok line) :
    runMain oid tsStart init events = some ⟨[line], none, 0, true⟩ ∧
    resolve OID_VISIBLE m = .ok (OID_VISIBLE ++ " = gauge: " ++ fmtInt m.visible ++ "\n") ∧
    resolve OID_USED m = .ok (OID_USED ++ " = gauge: " ++ fmtInt m.used ++ "\n") ∧
    resolve OID_SNR_AVG m = .ok (OID_SNR_AVG ++ " = gauge: " ++ fmtDouble6 m.snr_avg ++ "\n") ∧
    (∀ c ∈ (fmtInt m.visible).data, c ≠ '.') ∧
    (∀ c ∈ (fmtInt m.used).data, c ≠ '.') ∧
    (∃ pre : List Char,
      (fmtDouble6 m.snr_avg).data =
        pre ++ '.' :: fracDigits 6 (scaled6 m.snr_avg % 1000000) ∧
      (fracDigits 6 (scaled6 m.snr_avg % 1000000)).length = 6 ∧
      ∀ c ∈ pre, c ≠ '.') := by
  have e1 : OID_VISIBLE ≠ OID_USED := by decide
  have e2 : OID_VISIBLE ≠ OID_SNR_AVG := by decide
  have e3 : OID_USED ≠ OID_SNR_AVG := by decide
  refine ⟨by simp [runMain, hp, hr], ?_, ?_, ?_,
    fmtIntChars_no_dot m.visible, fmtIntChars_no_dot m.used, ?_⟩
  · simp [resolve, xlate, scanTable, renderVal]
  · simp [resolve, xlate, scanTable, renderVal, e1]
  · simp [resolve, xlate, scanTable, renderVal, e2, e3]
  · refine ⟨(if m.snr_avg < 0 then ['-'] else []) ++
      natDecAux (scaled6 m.snr_avg / 1000000 + 1) (scaled6 m.snr_avg / 1000000),
      ?_, fracDigits_length 6 _, ?_⟩
    · show fmtDouble6Chars m.snr_avg = _
      rw [fmtDouble6Chars, List.append_assoc]
    · intro c hc
      rcases List.mem_append.mp hc with h1 | h1
      · by_cases hneg : m.snr_avg < 0
        · rw [if_pos hneg] at h1
          simp at h1
          subst h1
          decide
        · rw [if_neg hneg] at h1
          simp at h1
      · obtain ⟨dg, hdg, rfl⟩ := natDecAux_mem_digit h1
        exact digitChar_ne_dot hdg

/-- C8 evaluated on a concrete successful run requesting the average-SNR
OID of an empty snapshot: exactly one line, six fractional digits. -/
theorem C8_output_format_witness :
    runMain OID_SNR_AVG 0 dZero [evNotReady] =
      some ⟨[".1.3.6.1.2.1.25.1.33 = gauge: 0.000000\n"], none, 0, true⟩ :=
  (C8_output_format mW OID_SNR_AVG 0 dZero [evNotReady] dZero
    ".1.3.6.1.2.1.25.1.33 = gauge: 0.000000\n" rfl rfl).1

/-! ### C9 -/

/-- C9: the SNR summation reads only the skyview positions
`0 .. satellites_used` inclusive: two skyviews that agree there give the
same sum, changing any record at a position greater than
`satellites_used` (even to a used, high-SNR one) never changes the sum,
and `snr_avg` is independent of `satellites_visible`. -/
theorem C9_window_only (used vis vis2 : Int) (sky sky2 : Nat → SatRecord)
    (h : ∀ i : Nat, (i : Int) ≤ used → sky i = sky2 i) :
    snrTotal used sky = snrTotal used sky2 ∧
    (∀ (j : Nat) (r : SatRecord), used < (j : Int) →
      snrTotal used (Function.update sky j r) = snrTotal used sky) ∧
    (aggregate ⟨used, vis, sky⟩).snr_avg = (aggregate ⟨used, vis2, sky⟩).snr_avg := by
  have key : ∀ g g2 : Nat → SatRecord, (∀ i : Nat, (i : Int) ≤ used → g i = g2 i) →
      snrTotal used g = snrTotal used g2 := by
    intro g g2 hg
    unfold snrTotal
    refine Finset.sum_congr rfl ?_
    intro i hi
    have hi2 : (i : Int) ≤ used := by
      have := Finset.mem_range.mp hi
      omega
    rw [hg i hi2]
  refine ⟨key sky sky2 h, ?_, rfl⟩
  intro j r hj
  refine key _ _ ?_
  intro i hi
  have hne : i ≠ j := by
    intro e
    subst e
    omega
  exact Function.update_noteq hne r sky

/-- C9 evaluated on concrete skyviews differing only at position 2 with
`satellites_used = 1`. -/
theorem C9_window_only_witness :
    snrTotal 1 skyA = snrTotal 1 skyB :=
  (C9_window_only 1 0 0 skyA skyB (by
    intro i hi
    have h1 : i ≤ 1 := by omega
    interval_cases i <;> rfl)).1

/-! ### C10 -/

/-- C10: when `gps_waiting` answers false before any satellite report has
arrived, the loop falls through with the session data unchanged and no
timeout error; the run aggregates that data, prints the requested metric
and exits with code 0. -/
theorem C10_no_data_success (oid : String) (tsStart : Int) (init : GpsData)
    (e : PollEvent) (rest : List PollEvent) (line : String)
    (hready : e.ready = false)
    (hres : resolve oid (aggregate init) = .ok line) :
    pollLoop tsStart init (e :: rest) = .proceed init ∧
      runMain oid tsStart init (e :: rest) = some ⟨[line], none, 0, true⟩ := by
  have hl : pollLoop tsStart init (e :: rest) = .proceed init := by
    simp [pollLoop, hready]
  exact ⟨hl, by simp [runMain, hl, hres]⟩

/-- C10 evaluated on a concrete never-ready transport and the used-count
OID of the empty snapshot. -/
theorem C10_no_data_success_witness :
    pollLoop 0 dZero [evNotReady] = .proceed dZero ∧
      runMain OID_USED 0 dZero [evNotReady] =
        some ⟨[".1.3.6.1.2.1.25.1.32 = gauge: 0\n"], none, 0, true⟩ :=
  C10_no_data_success OID_USED 0 dZero evNotReady []
    ".1.3.6.1.2.1.25.1.32 = gauge: 0\n" rfl rfl

end Gpssnmp
